import Mathlib

/-
Verification of the task-scheduler façade (pytask_scheduler).

Shallow embedding of src/pytask_scheduler/objects/objects.py.
Naive timestamps are modelled as microsecond counts (Nat); a calendar date
is the whole-day part of such a count.  Python int codes are Int,
Python str values are String, fallible operations return Except.
-/

namespace PyTaskSched

/-! ### Time model: naive timestamps in microseconds -/

def usecPerDay : Nat := 86400000000

def usecPerHour : Nat := 3600000000

def usecPerMin : Nat := 60000000

def usecPerSec : Nat := 1000000

/-- One row of the tasks table, restricted to the columns the date-window
queries read (`next_run_time`, `last_run_time` as naive timestamps). -/
structure TaskRow where
  name : String
  next_run_time : Nat
  last_run_time : Nat
deriving DecidableEq

/-- Ascending order on the `next_run_time` column. -/
def nextRunLE (a b : TaskRow) : Prop := a.next_run_time ≤ b.next_run_time

/-- Descending order on the `last_run_time` column. -/
def lastRunGE (a b : TaskRow) : Prop := b.last_run_time ≤ a.last_run_time

instance : DecidableRel nextRunLE := fun a b => Nat.decLe a.next_run_time b.next_run_time

instance : DecidableRel lastRunGE := fun a b => Nat.decLe b.last_run_time a.last_run_time

instance : IsTotal TaskRow nextRunLE := ⟨fun _ _ => Nat.le_total _ _⟩

instance : IsTrans TaskRow nextRunLE := ⟨fun _ _ _ h h2 => Nat.le_trans h h2⟩

instance : IsTotal TaskRow lastRunGE := ⟨fun _ _ => Nat.le_total _ _⟩

instance : IsTrans TaskRow lastRunGE := ⟨fun _ _ _ h h2 => Nat.le_trans h2 h⟩

/-! ### TasksDataFrame.get_tasks_completed_today (objects.py lines 98-110)

`todays_date = datetime.today().date()` and `current_datetime = datetime.now()`
are taken at the same call instant `t`.  The polars filter
`is_between(todays_date, current_datetime)` is closed on both ends and casts
the Date lower bound to the Datetime at midnight. -/

def get_tasks_completed_today (rows : List TaskRow) (t : Nat) : List TaskRow :=
  let todayStart := t / usecPerDay * usecPerDay
  List.insertionSort lastRunGE
    (rows.filter (fun r => todayStart ≤ r.last_run_time && r.last_run_time ≤ t))

/-! ### TasksDataFrame.get_tasks_due_today (objects.py lines 112-149)

`upper_date = current_dt.date() + timedelta(hours=23-h, minutes=59-m,
seconds=59-s, microseconds=999999-us)`.  Python `date.__add__` uses only the
whole-day component of the (normalised) timedelta; the sub-day remainder is
discarded, and polars casts the resulting Date bound to the Datetime at
midnight when filtering a Datetime column. -/

def get_tasks_due_today (rows : List TaskRow) (t : Nat) : List TaskRow :=
  let lower := t
  let tod := t % usecPerDay
  let thour := tod / usecPerHour
  let tmin := tod % usecPerHour / usecPerMin
  let tsec := tod % usecPerMin / usecPerSec
  let tmsec := tod % usecPerSec
  let deltaUsec := (23 - thour) * usecPerHour + (59 - tmin) * usecPerMin
      + (59 - tsec) * usecPerSec + (999999 - tmsec)
  let upperDateDays := t / usecPerDay + deltaUsec / usecPerDay
  let upper := upperDateDays * usecPerDay
  List.insertionSort nextRunLE
    (rows.filter (fun r => lower ≤ r.next_run_time && r.next_run_time ≤ upper))

/-- End of the calling day down to the microsecond: 23:59:59.999999 of the
date of `t` (the window bound the spec asks for). -/
def endOfToday (t : Nat) : Nat := t / usecPerDay * usecPerDay + (usecPerDay - 1)

/-! ### Folder tree and TaskScheduler traversal (objects.py lines 217-273)

A provider folder with its name, its directly contained task names and its
subfolders.  `__find_folder` and the recursive walk of
`__list_tasks_info_in_folder` take explicit fuel: the fuel models the Python
call stack (the source recursion is not structurally bounded because every
subfolder is re-resolved by a global name search from the root). -/

inductive FolderTree where
  | mk (name : String) (tasks : List String) (subs : List FolderTree)

def FolderTree.name : FolderTree → String
  | .mk n _ _ => n

def FolderTree.tasks : FolderTree → List String
  | .mk _ t _ => t

def FolderTree.subs : FolderTree → List FolderTree
  | .mk _ _ s => s

/-- `TaskScheduler.__find_folder`: for each subfolder, first compare its name,
then search inside it, before moving to the next subfolder; the first match in
this order wins. -/
def findFolder : Nat → FolderTree → String → Option FolderTree
  | 0, _, _ => none
  | fuel + 1, f, target =>
    f.subs.foldl
      (fun acc sf =>
        match acc with
        | some r => some r
        | none =>
          if sf.name = target then some sf
          else findFolder fuel sf target)
      none

/-- `TaskScheduler.__list_tasks_info_in_folder`: append the tasks of the
current folder, then for each subfolder NAME resolve a folder through
`get_folder` (a global name search from the root) and recurse into whatever
folder that search returned.  `none` models a raised error or an exhausted
call stack. -/
def listTasksInFolder (root : FolderTree) : Nat → FolderTree → List String →
    Option (List String)
  | 0, _, _ => none
  | fuel + 1, f, acc =>
    (f.subs.map FolderTree.name).foldl
      (fun macc sfName =>
        match macc with
        | none => none
        | some acc2 =>
          match findFolder 100 root sfName with
          | none => none
          | some sub => listTasksInFolder root fuel sub acc2)
      (some (acc ++ f.tasks))

/-- `TaskScheduler.get_all_tasks`: walk the whole tree starting from the root
folder with an empty accumulator. -/
def get_all_tasks (fuel : Nat) (root : FolderTree) : Option (List String) :=
  listTasksInFolder root fuel root []

/-- The tasks actually reachable from the root: depth-first, tasks of a folder
before its subfolders (the traversal the claim describes). -/
def reachableTasks : Nat → FolderTree → List String
  | 0, _ => []
  | fuel + 1, f => f.tasks ++ (f.subs.map (reachableTasks fuel)).flatten

/-- Counterexample tree for the traversal: two distinct folders named X on
different branches, each with its own task. -/
def dupNameTree : FolderTree :=
  .mk "root" []
    [ .mk "A" [] [.mk "X" ["t1"] []],
      .mk "B" [] [.mk "X" ["t2"] []] ]

/-! ### RegisteredTask.__extract_action_execpath (objects.py lines 462-472)

The serialized definition is an element tree; `findall(tag)` returns the
direct children carrying that (namespaced) tag, in document order.  The
namespace braces of the source string are written with character escapes. -/

inductive XmlElem where
  | mk (tag : String) (text : String) (children : List XmlElem)

def XmlElem.tag : XmlElem → String
  | .mk t _ _ => t

def XmlElem.text : XmlElem → String
  | .mk _ t _ => t

def XmlElem.children : XmlElem → List XmlElem
  | .mk _ _ c => c

/-- `Element.findall` restricted to a plain tag: the direct children whose tag
matches, in document order. -/
def XmlElem.findall (e : XmlElem) (t : String) : List XmlElem :=
  e.children.filter (fun c => c.tag = t)

def nsTask : String := "\x7bhttp://schemas.microsoft.com/windows/2004/02/mit/task\x7d"

/-- The three nested `for` loops of `__extract_action_execpath`: every visited
`Command` element overwrites `exepath`, which starts as the empty string. -/
def extract_action_execpath (root : XmlElem) : String :=
  (root.findall (nsTask ++ "Actions")).foldl
    (fun s act =>
      (act.findall (nsTask ++ "Exec")).foldl
        (fun s2 exe =>
          (exe.findall (nsTask ++ "Command")).foldl
            (fun _ cmd => cmd.text) s2)
        s)
    ""

/-- All `Command` elements the extraction loop visits, in visiting order. -/
def commandElems (root : XmlElem) : List XmlElem :=
  (root.findall (nsTask ++ "Actions")).flatMap
    (fun act => (act.findall (nsTask ++ "Exec")).flatMap
      (fun exe => exe.findall (nsTask ++ "Command")))

/-! ### TasksDataFrame.preprocess derived columns (objects.py lines 19-70) -/

/-- Polars `Expr.replace(mapping)`: a value present in the mapping is replaced
by its image, any other value passes through unchanged (no missing-key error). -/
def plReplace (table : List (String × String)) (v : String) : String :=
  match table.lookup v with
  | some l => l
  | none => v

/-- Modelled from the spec: `TaskValueDefinitions.TASK_STATE_DEFINITION` lives
in `pytask_scheduler.constants`, which is not under src/.  The spec fixes the
five task states (unknown / disabled / queued / ready / running) keyed by
their numeric codes rendered as strings. -/
def TASK_STATE_DEFINITION : List (String × String) :=
  [("0", "Unknown"), ("1", "Disabled"), ("2", "Queued"),
   ("3", "Ready"), ("4", "Running")]

/-- Modelled from the spec: `TaskValueDefinitions.TASK_RESULT_DEFINITION`
lives in `pytask_scheduler.constants`, which is not under src/.  It maps
last-result codes, rendered as strings, to human-readable labels. -/
def TASK_RESULT_DEFINITION : List (String × String) :=
  [("0", "The operation completed successfully."),
   ("267011", "The task has not yet run."),
   ("267009", "The task is currently running.")]

/-- Derived column `task_state_definition`: the state code is cast to its
string form and mapped through the fixed lookup table. -/
def task_state_definition (code : Int) : String :=
  plReplace TASK_STATE_DEFINITION (toString code)

/-- Derived column `last_task_result_definition`: the last-result code is cast
to its string form and mapped through the fixed lookup table. -/
def last_task_result_definition (code : Int) : String :=
  plReplace TASK_RESULT_DEFINITION (toString code)

/-- Splitting a character list at every occurrence of a separator character,
keeping empty pieces; `cur` holds the characters of the current piece in
reverse. -/
def splitOnCharAux (sep : Char) : List Char → List Char → List String
  | [], cur => [String.mk cur.reverse]
  | c :: rest, cur =>
    if c = sep then
      String.mk cur.reverse :: splitOnCharAux sep rest []
    else
      splitOnCharAux sep rest (c :: cur)

/-- `task_path.str.split("\\")`: split on the literal backslash separator,
keeping empty pieces. -/
def splitPath (s : String) : List String := splitOnCharAux '\\' s.toList []

/-- Polars `list.slice(offset, length)`. -/
def listSlice (l : List String) (off len : Nat) : List String :=
  (l.drop off).take len

/-- Derived column `task_folder_name` after the second `with_columns` pass:
the backslash literal when the segment list has at most two entries, otherwise
the first element of `list.slice(1, 2)`. -/
def task_folder_name (path : String) : String :=
  let segs := splitPath path
  if segs.length ≤ 2 then "\\" else ((listSlice segs 1 2).head?).getD ""

/-! ### TaskFolder operations (objects.py lines 539-613)

A `TaskFolder` snapshots the provider folder: subfolder names and task names.
Each operation returns its Python result (or the raised error message) paired
with the list of provider calls it issued; an empty call list means the
provider state is untouched. -/

structure TaskFolderS where
  name : String
  path : String
  subfolders : List String
  tasks : List String
deriving DecidableEq

inductive ProviderCall where
  | createFolderC (n : String)
  | deleteFolderC (n : String)
  | getTaskC (n : String)
deriving DecidableEq

/-- `TaskFolder.create_folder`: raise before any provider call when the name
is already among the subfolders, otherwise ask the provider to create the
subfolder and wrap it. -/
def create_folder (f : TaskFolderS) (folder_name : String) :
    Except String TaskFolderS × List ProviderCall :=
  if folder_name ∈ f.subfolders then
    (.error (folder_name ++ " already exists!"), [])
  else
    (.ok { name := folder_name, path := f.path ++ "\\" ++ folder_name,
           subfolders := [], tasks := [] },
     [.createFolderC folder_name])

/-- `TaskFolder.delete_folder`: delete through the provider when the name is
among the subfolders, otherwise raise. -/
def delete_folder (f : TaskFolderS) (folder_name : String) :
    Except String Unit × List ProviderCall :=
  if folder_name ∈ f.subfolders then
    (.ok (), [.deleteFolderC folder_name])
  else
    (.error (folder_name ++ " does not exist!"), [])

/-- `TaskFolder.get_task`: fetch through the provider when the name is among
the folder task names, otherwise raise.  The fetched handle is identified by
the task name. -/
def get_task (f : TaskFolderS) (task_name : String) :
    Except String String × List ProviderCall :=
  if task_name ∈ f.tasks then
    (.ok task_name, [.getTaskC task_name])
  else
    (.error (task_name ++ " does not exist in this folder!"), [])

/-! ### Task definitions, trigger and action builders (objects.py 489-537, 683-797)

Modelled from the spec where the provider object model is concerned: the
Triggers and Actions collections of a task definition accept `Create`
followed by property writes that configure the created trigger or action
(spec section 4.3); the collections themselves live in the COM layer, not
under src/. -/

inductive TriggerKind where
  | daily
  | weekly
  | monthly
  | monthlydow
  | oneTime
deriving DecidableEq

structure TriggerS where
  kind : TriggerKind
  startBoundary : String
  daysInterval : Option Int := none
  weeksInterval : Option Int := none
  daysOfWeek : Option Int := none
  daysOfMonth : Option Int := none
  monthsOfYear : Option Int := none
  weeksOfMonth : Option Int := none
deriving DecidableEq

structure ActionS where
  path : String
  arguments : Option String
  workingDirectory : Option String
deriving DecidableEq

structure SettingsS where
  allowDemandStart : Option Bool := none
  startWhenAvailable : Option Bool := none
  enabled : Option Bool := none
  hidden : Option Bool := none
  restartInterval : Option String := none
  restartCount : Option Int := none
  executionTimeLimit : Option String := none
  multipleInstances : Option Int := none
deriving DecidableEq

structure TaskDefS where
  triggers : List TriggerS := []
  actions : List ActionS := []
  description : String := ""
  settings : SettingsS := {}
deriving DecidableEq

/-- `self.client.NewTask(0)`: a fresh, empty task definition. -/
def newTaskDef : TaskDefS := {}

/-- `datetime.combine(start_date, start_time).isoformat()` with the date and
time kept as their ISO strings. -/
def isoCombine (start_date start_time : String) : String :=
  start_date ++ "T" ++ start_time

/-- `TaskTrigger.create_daily_trigger`. -/
def create_daily_trigger (td : TaskDefS) (start_date start_time : String)
    (days_interval : Option Int) : TaskDefS :=
  { td with triggers := td.triggers ++
      [{ kind := .daily, startBoundary := isoCombine start_date start_time,
         daysInterval := days_interval }] }

/-- `TaskTrigger.create_weekly_trigger`. -/
def create_weekly_trigger (td : TaskDefS) (start_date start_time : String)
    (weeks_interval days_of_week : Option Int) : TaskDefS :=
  { td with triggers := td.triggers ++
      [{ kind := .weekly, startBoundary := isoCombine start_date start_time,
         weeksInterval := weeks_interval, daysOfWeek := days_of_week }] }

/-- `TaskTrigger.create_monthly_trigger`: the `trigger_type` string selects
the by-day-of-month or by-day-of-week sub-mode. -/
def create_monthly_trigger (td : TaskDefS) (trigger_type : String)
    (start_date start_time : String)
    (days_of_month days_of_week months_of_year weeks_of_month : Option Int) :
    TaskDefS :=
  if trigger_type = "month" then
    { td with triggers := td.triggers ++
        [{ kind := .monthly, startBoundary := isoCombine start_date start_time,
           daysOfMonth := days_of_month, monthsOfYear := months_of_year }] }
  else if trigger_type = "dow" then
    { td with triggers := td.triggers ++
        [{ kind := .monthlydow, startBoundary := isoCombine start_date start_time,
           daysOfWeek := days_of_week, monthsOfYear := months_of_year,
           weeksOfMonth := weeks_of_month }] }
  else td

/-- `TaskTrigger.create_one_time_trigger`. -/
def create_one_time_trigger (td : TaskDefS) (start_date start_time : String) :
    TaskDefS :=
  { td with triggers := td.triggers ++
      [{ kind := .oneTime, startBoundary := isoCombine start_date start_time }] }

/-- `TaskAction.create_execution_action`. -/
def create_execution_action (td : TaskDefS) (argument : Option String)
    (filepath : String) (working_dir : Option String) : TaskDefS :=
  { td with actions := td.actions ++
      [{ path := filepath, arguments := argument,
         workingDirectory := working_dir }] }

/-! ### TaskFolder.register_new_task (objects.py lines 601-613) -/

/-- Modelled from the spec: `TaskCreationTypes.TASK_CREATE_OR_UPDATE` lives in
`pytask_scheduler.constants`, which is not under src/; its value is the
Windows Task Scheduler create-or-update registration flag. -/
def TASK_CREATE_OR_UPDATE : Nat := 6

/-- Modelled from the spec: `TaskLogonTypes.TASK_LOGON_NONE` lives in
`pytask_scheduler.constants`, which is not under src/; its value is the
Windows Task Scheduler logon type that uses no stored credentials. -/
def TASK_LOGON_NONE : Nat := 0

/-- A provider folder as registration target: name and the provider-side map
from task names to registered definitions. -/
structure FolderR where
  name : String
  taskMap : List (String × TaskDefS)
deriving DecidableEq

/-- The arguments `register_new_task` hands to the provider call
`RegisterTaskDefinition`. -/
structure RegisterRequest where
  taskName : String
  definition : TaskDefS
  flags : Nat
  userId : String
  password : String
  logonType : Nat
deriving DecidableEq

/-- Modelled from the spec: the provider's `RegisterTaskDefinition` under the
create-or-update flag replaces an existing task of the same name and
otherwise appends a new one (spec sections 4.3 and 6). -/
def upsert : List (String × TaskDefS) → String → TaskDefS →
    List (String × TaskDefS)
  | [], n, d => [(n, d)]
  | (k, v) :: rest, n, d =>
    if k = n then (n, d) :: rest else (k, v) :: upsert rest n d

/-- `TaskFolder.register_new_task`: one provider call with the
create-or-update flag, empty user id, empty password and the no-credentials
logon type.  Returns the folder after the call together with the issued
request. -/
def register_new_task (f : FolderR) (task_name : String) (new_taskdef : TaskDefS) :
    FolderR × RegisterRequest :=
  ({ f with taskMap := upsert f.taskMap task_name new_taskdef },
   { taskName := task_name, definition := new_taskdef,
     flags := TASK_CREATE_OR_UPDATE, userId := "", password := "",
     logonType := TASK_LOGON_NONE })

/-! ### TaskScheduler.create_task (objects.py lines 275-416) -/

inductive PsError where
  | notFound (msg : String)
  | notImplemented (msg : String)
deriving DecidableEq

/-- The trigger dispatch of `create_task`: a `match` on the `trigger_type`
string with one case per supported cadence and no fallback case, so an
unknown string changes nothing. -/
def applyTrigger (trigger_type : String) (start_date start_time : String)
    (days_interval weeks_interval days_of_week days_of_month months_of_year
     weeks_of_month : Option Int) (td : TaskDefS) : TaskDefS :=
  if trigger_type = "daily" then
    create_daily_trigger td start_date start_time days_interval
  else if trigger_type = "weekly" then
    create_weekly_trigger td start_date start_time weeks_interval days_of_week
  else if trigger_type = "monthly" then
    create_monthly_trigger td "month" start_date start_time days_of_month
      days_of_week months_of_year weeks_of_month
  else if trigger_type = "monthlydow" then
    create_monthly_trigger td "dow" start_date start_time days_of_month
      days_of_week months_of_year weeks_of_month
  else if trigger_type = "one-time" then
    create_one_time_trigger td start_date start_time
  else td

/-- `TaskScheduler.create_task`, with the folder resolution of `get_folder`
abstracted as the environment `lookup` (the outcome of the global name
search).  The trigger dispatch runs first; the action dispatch raises
`NotImplementedError` for the three unimplemented kinds and changes nothing
for an unknown string; on success the description and the eight settings are
written and the definition is registered into the found folder. -/
def create_task (lookup : String → Option FolderR) (folder_name : String)
    (trigger_type : String) (start_date start_time : String)
    (days_interval weeks_interval days_of_week days_of_month months_of_year
     weeks_of_month : Option Int)
    (action_type : String) (action_arg : Option String) (action_file : String)
    (action_working_dir : Option String)
    (task_name task_description : String) (sett : SettingsS) :
    Except PsError (FolderR × TaskDefS) :=
  match lookup folder_name with
  | none => .error (.notFound ("Could not find " ++ folder_name))
  | some folder =>
    let td1 := applyTrigger trigger_type start_date start_time days_interval
      weeks_interval days_of_week days_of_month months_of_year weeks_of_month
      newTaskDef
    if action_type = "exec" then
      let td2 := create_execution_action td1 action_arg action_file
        action_working_dir
      let td3 := { td2 with description := task_description, settings := sett }
      .ok ((register_new_task folder task_name td3).1, td3)
    else if action_type = "com-handler" then
      .error (.notImplemented "Create com handler action has not been implemented")
    else if action_type = "email" then
      .error (.notImplemented "Create send email action has not been implemented")
    else if action_type = "show-message" then
      .error (.notImplemented "Create show message action has not been implemented")
    else
      let td3 := { td1 with description := task_description, settings := sett }
      .ok ((register_new_task folder task_name td3).1, td3)

/-- The `NotImplementedError` message `create_task` raises for each
unimplemented action kind. -/
def actionErrMsg (action_type : String) : String :=
  if action_type = "com-handler" then
    "Create com handler action has not been implemented"
  else if action_type = "email" then
    "Create send email action has not been implemented"
  else
    "Create show message action has not been implemented"

/-- The task definition produced when the trigger dispatch matched no case
and only the implemented exec action was attached. -/
def execOnlyTaskDef (aarg : Option String) (afile : String) (awd : Option String)
    (descr : String) (sett : SettingsS) : TaskDefS :=
  { triggers := [],
    actions := [{ path := afile, arguments := aarg, workingDirectory := awd }],
    description := descr, settings := sett }

/-! ### Concrete inputs used by the closed theorems and witnesses -/

def c1CallInstant : Nat := 19723 * usecPerDay + 10 * usecPerHour

def c1Row : TaskRow :=
  { name := "backup", next_run_time := 19723 * usecPerDay + 12 * usecPerHour,
    last_run_time := 0 }

def c8CallInstant : Nat := 19723 * usecPerDay + 10 * usecPerHour

def c8Row : TaskRow :=
  { name := "job", next_run_time := 0, last_run_time := c8CallInstant }

def twoExecXml : XmlElem :=
  .mk "Task" ""
    [ .mk (nsTask ++ "Actions") ""
        [ .mk (nsTask ++ "Exec") "" [.mk (nsTask ++ "Command") "C:\\one.exe" []],
          .mk (nsTask ++ "Exec") "" [.mk (nsTask ++ "Command") "C:\\two.exe" []] ] ]

def noExecXml : XmlElem := .mk "Task" "" [.mk (nsTask ++ "Actions") "" []]

def demoFolder : TaskFolderS :=
  { name := "root", path := "\\", subfolders := ["sub"], tasks := ["job"] }

def tdOld : TaskDefS := { description := "old" }

def tdNew : TaskDefS := { description := "new" }

def demoRegFolder : FolderR := { name := "jobs", taskMap := [("job", tdOld)] }

def demoLookup : String → Option FolderR :=
  fun n => if n = "jobs" then some { name := "jobs", taskMap := [] } else none

/-! ### Helper lemmas -/

theorem foldl_overwrite {α β : Type} (f : α → β) :
    ∀ (l : List α) (s : β),
      l.foldl (fun _ a => f a) s = ((l.getLast?).map f).getD s
  | [], _ => rfl
  | [_], _ => rfl
  | a :: b :: l, s => by
    rw [List.foldl_cons, foldl_overwrite f (b :: l) (f a),
      List.getLast?_cons_cons]
    cases h : (b :: l).getLast? with
    | none => simp at h
    | some x => simp [h]

theorem foldl_flatMap {α β γ : Type} (g : α → List β) (f : γ → β → γ) :
    ∀ (l : List α) (s : γ),
      (l.flatMap g).foldl f s = l.foldl (fun x a => (g a).foldl f x) s
  | [], _ => rfl
  | a :: l, s => by
    rw [List.flatMap_cons, List.foldl_append, List.foldl_cons]
    exact foldl_flatMap g f l _

theorem extract_eq_foldl (root : XmlElem) :
    extract_action_execpath root
      = (commandElems root).foldl (fun _ cmd => XmlElem.text cmd) "" := by
  rw [extract_action_execpath, commandElems, foldl_flatMap]
  congr 1
  funext s act
  rw [foldl_flatMap]

theorem lookup_upsert_self :
    ∀ (l : List (String × TaskDefS)) (n : String) (d : TaskDefS),
      (upsert l n d).lookup n = some d
  | [], n, d => by simp [upsert, List.lookup]
  | (k, v) :: rest, n, d => by
    by_cases h : k = n
    · simp [upsert, h, List.lookup]
    · have hne : (n == k) = false := beq_eq_false_iff_ne.mpr (Ne.symm h)
      simp [upsert, if_neg h, List.lookup, hne, lookup_upsert_self rest n d]

theorem lookup_upsert_ne :
    ∀ (l : List (String × TaskDefS)) (n : String) (d : TaskDefS) (k : String),
      k ≠ n → (upsert l n d).lookup k = l.lookup k
  | [], n, d, k, hk => by
    simp [upsert, List.lookup, beq_eq_false_iff_ne.mpr hk]
  | (k2, v) :: rest, n, d, k, hk => by
    by_cases h : k2 = n
    · subst h
      simp [upsert, List.lookup, beq_eq_false_iff_ne.mpr hk]
    · simp only [upsert, if_neg h, List.lookup]
      cases hkk : (k == k2) <;>
        simp [hkk, lookup_upsert_ne rest n d k hk]

theorem keys_upsert :
    ∀ (l : List (String × TaskDefS)) (n : String) (d : TaskDefS),
      (upsert l n d).map Prod.fst =
        if n ∈ l.map Prod.fst then l.map Prod.fst else l.map Prod.fst ++ [n]
  | [], n, d => by simp [upsert]
  | (k, v) :: rest, n, d => by
    by_cases h : k = n
    · subst h
      simp [upsert]
    · by_cases h2 : n ∈ rest.map Prod.fst
      · simp [upsert, if_neg h, keys_upsert rest n d, h2, Ne.symm h]
      · simp [upsert, if_neg h, keys_upsert rest n d, h2, Ne.symm h]

/-! ### Claim theorems -/

/-- C1: at call instant 2024-01-01T10:00:00 a task with next run
2024-01-01T12:00:00 lies inside the closed window up to 23:59:59.999999 that
the claim describes, yet `get_tasks_due_today` returns the empty table: the
Python expression `current_dt.date() + timedelta(...)` discards the sub-day
remainder, so the upper bound collapses to the midnight that starts the day
and the filter window is empty. -/
theorem get_tasks_due_today_empty_on_due_task :
    get_tasks_due_today [c1Row] c1CallInstant = []
    ∧ c1CallInstant ≤ c1Row.next_run_time
    ∧ c1Row.next_run_time ≤ endOfToday c1CallInstant := by
  decide

/-- C2: on a folder tree with two distinct folders named X on different
branches, `get_all_tasks` emits the task of the first X twice and never
reaches the second X, whereas the depth-first tasks-first traversal of the
claim lists each reachable task exactly once; the walk resolves every
subfolder by a global name search from the root. -/
theorem get_all_tasks_duplicate_name_miscount :
    get_all_tasks 20 dupNameTree = some ["t1", "t1"]
    ∧ reachableTasks 20 dupNameTree = ["t1", "t2"] := by
  decide

/-- C8 counterexample: a row whose last run equals the call instant is
returned by `get_tasks_completed_today`, although the half-open window of the
claim excludes it (polars `is_between` is closed at both ends). -/
theorem get_tasks_completed_today_includes_upper_bound :
    c8Row ∈ get_tasks_completed_today [c8Row] c8CallInstant
    ∧ ¬ (c8Row.last_run_time < c8CallInstant) := by
  decide

/-- C8 amended: `get_tasks_completed_today` returns exactly the rows whose
last-run timestamp lies in the CLOSED window from the midnight starting the
day of the call instant up to and including the call instant, sorted
descending by last run. -/
theorem get_tasks_completed_today_spec (rows : List TaskRow) (t : Nat) :
    (get_tasks_completed_today rows t).Perm
      (rows.filter (fun r =>
        t / usecPerDay * usecPerDay ≤ r.last_run_time && r.last_run_time ≤ t))
    ∧ (get_tasks_completed_today rows t).Pairwise lastRunGE := by
  constructor
  · exact List.perm_insertionSort lastRunGE _
  · exact List.sorted_insertionSort lastRunGE _

/-- C3: the extracted executable path is the text of the last Command element
visited by the namespaced Actions/Exec/Command walk (last write wins), and it
is the empty string when no Exec action exists; on a definition with two Exec
actions it is the path of the one parsed last. -/
theorem extract_action_execpath_spec (root : XmlElem) :
    (extract_action_execpath root
      = (((commandElems root).getLast?).map XmlElem.text).getD "")
    ∧ ((∀ act ∈ root.findall (nsTask ++ "Actions"),
          act.findall (nsTask ++ "Exec") = []) →
        extract_action_execpath root = "")
    ∧ extract_action_execpath twoExecXml = "C:\\two.exe" := by
  refine ⟨?_, ?_, ?_⟩
  · rw [extract_eq_foldl, foldl_overwrite]
  · intro h
    have hnil : commandElems root = [] := by
      rw [commandElems, List.flatMap_eq_nil_iff]
      intro act hact
      rw [List.flatMap_eq_nil_iff]
      intro exe hexe
      rw [h act hact] at hexe
      simp at hexe
    rw [extract_eq_foldl, hnil]
    rfl
  · rw [extract_eq_foldl]
    rfl

/-- C3 witness: on a document whose Actions element holds no Exec action the
hypothesis of the no-Exec branch holds and the extraction returns the empty
string. -/
theorem extract_action_execpath_spec_witness :
    extract_action_execpath noExecXml = "" :=
  (extract_action_execpath_spec noExecXml).2.1
    (by
      intro act hact
      simp only [noExecXml, XmlElem.findall, XmlElem.children,
        List.filter] at hact
      split at hact
      · rw [List.mem_singleton] at hact
        subst hact
        rfl
      · simp at hact)

/-- C6: each state code and last-result code is cast to its string form and
mapped through the fixed lookup table; a code whose string form is a key maps
to its label, any other code maps to its own string form, with no error. -/
theorem preprocess_label_lookup (code : Int) :
    (∀ l, TASK_STATE_DEFINITION.lookup (toString code) = some l →
      task_state_definition code = l)
    ∧ (TASK_STATE_DEFINITION.lookup (toString code) = none →
      task_state_definition code = toString code)
    ∧ (∀ l, TASK_RESULT_DEFINITION.lookup (toString code) = some l →
      last_task_result_definition code = l)
    ∧ (TASK_RESULT_DEFINITION.lookup (toString code) = none →
      last_task_result_definition code = toString code) := by
  refine ⟨fun l h => ?_, fun h => ?_, fun l h => ?_, fun h => ?_⟩ <;>
    simp [task_state_definition, last_task_result_definition, plReplace, h]

/-- C6 witness: state code 3 is in the table and maps to its label, state
code 99 is not and passes through as its own string form. -/
theorem preprocess_label_lookup_witness :
    task_state_definition 3 = "Ready" ∧ task_state_definition 99 = "99" :=
  ⟨(preprocess_label_lookup 3).1 "Ready" (by decide),
   (preprocess_label_lookup 99).2.1 (by decide)⟩

/-- C7: the task path splits on the backslash separator into a segment list;
the derived top-folder column is the backslash when the list has at most two
entries and the second segment otherwise; the path \A\B\C yields the segments
["", "A", "B", "C"] and top-folder "A". -/
theorem task_folder_name_spec (path : String) :
    ((splitPath path).length ≤ 2 → task_folder_name path = "\\")
    ∧ (3 ≤ (splitPath path).length →
        (splitPath path).get? 1 = some (task_folder_name path))
    ∧ splitPath "\\A\\B\\C" = ["", "A", "B", "C"]
    ∧ task_folder_name "\\A\\B\\C" = "A" := by
  refine ⟨fun h => ?_, fun h => ?_, by decide, by decide⟩
  · simp [task_folder_name, h]
  · match hs : splitPath path with
    | [] => rw [hs] at h; simp at h
    | [_] => rw [hs] at h; simp at h
    | [_, _] => rw [hs] at h; simp at h
    | a :: b :: c :: rest =>
      simp only [task_folder_name, hs, listSlice]
      rw [if_neg (by simp)]
      rfl

/-- C7 witness: the path \A\B\C has four segments and its derived top folder
is its second segment. -/
theorem task_folder_name_spec_witness :
    (splitPath "\\A\\B\\C").get? 1 = some (task_folder_name "\\A\\B\\C") :=
  (task_folder_name_spec "\\A\\B\\C").2.1 (by decide)

/-- C9: `get_task` and `delete_folder` raise the error naming the entity
exactly when the requested name is absent from the folder task or subfolder
list, `create_folder` raises the already-exists error naming the entity
exactly when the name is already among the subfolders, and on every error
branch no provider call is issued, so the folder state is unchanged. -/
theorem folder_ops_error_spec (f : TaskFolderS) (n : String) :
    ((get_task f n).1 = .error (n ++ " does not exist in this folder!")
      ↔ n ∉ f.tasks)
    ∧ (n ∉ f.tasks → (get_task f n).2 = [])
    ∧ ((delete_folder f n).1 = .error (n ++ " does not exist!")
      ↔ n ∉ f.subfolders)
    ∧ (n ∉ f.subfolders → (delete_folder f n).2 = [])
    ∧ ((create_folder f n).1 = .error (n ++ " already exists!")
      ↔ n ∈ f.subfolders)
    ∧ (n ∈ f.subfolders → (create_folder f n).2 = []) := by
  by_cases ht : n ∈ f.tasks <;> by_cases hs : n ∈ f.subfolders <;>
    simp [get_task, delete_folder, create_folder, ht, hs]

/-- C9 witness: in a folder with subfolder "sub" and task "job", looking up or
deleting the absent name "ghost" raises the error naming it with no provider
call, and creating the existing name "sub" raises the already-exists error
with no provider call. -/
theorem folder_ops_error_spec_witness :
    (get_task demoFolder "ghost").1
      = .error ("ghost" ++ " does not exist in this folder!")
    ∧ (get_task demoFolder "ghost").2 = []
    ∧ (delete_folder demoFolder "ghost").1
      = .error ("ghost" ++ " does not exist!")
    ∧ (create_folder demoFolder "sub").1
      = .error ("sub" ++ " already exists!")
    ∧ (create_folder demoFolder "sub").2 = [] :=
  ⟨(folder_ops_error_spec demoFolder "ghost").1.mpr (by decide),
   (folder_ops_error_spec demoFolder "ghost").2.1 (by decide),
   (folder_ops_error_spec demoFolder "ghost").2.2.1.mpr (by decide),
   (folder_ops_error_spec demoFolder "sub").2.2.2.2.1.mpr (by decide),
   (folder_ops_error_spec demoFolder "sub").2.2.2.2.2 (by decide)⟩

/-- C5: registering a definition under a name uses exactly one provider call
carrying the create-or-update flag, empty user id and password and the
no-credentials logon type; afterwards the name maps to the new definition,
the key sequence gains the name only if it was absent (an existing task is
overwritten, never duplicated, and no already-exists error is possible since
the operation is total), and every other name is untouched. -/
theorem register_new_task_spec (f : FolderR) (name : String) (td : TaskDefS) :
    ((register_new_task f name td).1.taskMap.lookup name = some td)
    ∧ ((register_new_task f name td).1.taskMap.map Prod.fst =
        if name ∈ f.taskMap.map Prod.fst then f.taskMap.map Prod.fst
        else f.taskMap.map Prod.fst ++ [name])
    ∧ (∀ k, k ≠ name →
        (register_new_task f name td).1.taskMap.lookup k = f.taskMap.lookup k)
    ∧ (register_new_task f name td).2 =
        { taskName := name, definition := td, flags := TASK_CREATE_OR_UPDATE,
          userId := "", password := "", logonType := TASK_LOGON_NONE } :=
  ⟨lookup_upsert_self f.taskMap name td,
   keys_upsert f.taskMap name td,
   fun k hk => lookup_upsert_ne f.taskMap name td k hk,
   rfl⟩

/-- C5 witness: registering "job" into a folder that already holds a task
named "job" overwrites it, keeps a single key, leaves other lookups
unchanged and passes empty credentials. -/
theorem register_new_task_spec_witness :
    (register_new_task demoRegFolder "job" tdNew).1.taskMap.lookup "job"
      = some tdNew
    ∧ (register_new_task demoRegFolder "job" tdNew).1.taskMap.map Prod.fst
      = ["job"]
    ∧ (register_new_task demoRegFolder "job" tdNew).1.taskMap.lookup "other"
      = demoRegFolder.taskMap.lookup "other"
    ∧ (register_new_task demoRegFolder "job" tdNew).2.userId = "" := by
  have h := register_new_task_spec demoRegFolder "job" tdNew
  refine ⟨h.1, ?_, h.2.2.1 "other" (by decide), by rw [h.2.2.2]⟩
  rw [h.2.1]
  decide

/-- C4: when the folder resolves, the trigger type is one of the five
supported cadences and the action type is one of the three unimplemented
kinds, `create_task` fails with the not-implemented error of that action
kind (no silent no-op, no registration, not a trigger or not-found error),
and the trigger dispatch that runs before the action dispatch does build
exactly one trigger. -/
theorem create_task_unimplemented_action
    (lookup : String → Option FolderR) (folder_name : String) (folder : FolderR)
    (trigger_type start_date start_time : String)
    (di wi dw dm my wm : Option Int) (action_type : String)
    (action_arg : Option String) (action_file : String)
    (awd : Option String) (task_name task_description : String)
    (sett : SettingsS)
    (hf : lookup folder_name = some folder)
    (ht : trigger_type ∈ ["daily", "weekly", "monthly", "monthlydow", "one-time"])
    (ha : action_type ∈ ["com-handler", "email", "show-message"]) :
    create_task lookup folder_name trigger_type start_date start_time
        di wi dw dm my wm action_type action_arg action_file awd
        task_name task_description sett
      = .error (.notImplemented (actionErrMsg action_type))
    ∧ (applyTrigger trigger_type start_date start_time di wi dw dm my wm
        newTaskDef).triggers.length = 1 := by
  constructor
  · fin_cases ha <;> simp [create_task, hf, actionErrMsg]
  · fin_cases ht <;>
      simp [applyTrigger, create_daily_trigger, create_weekly_trigger,
        create_monthly_trigger, create_one_time_trigger, newTaskDef]

/-- C4 witness: trigger type monthlydow with action type email fails with the
not-implemented message of the email action, and the monthlydow trigger was
built. -/
theorem create_task_unimplemented_action_witness :
    create_task demoLookup "jobs" "monthlydow" "2024-01-01" "08:00:00"
        none none (some 2) none (some 1) (some 1) "email" none "run.bat" none
        "t" "d" {}
      = .error (.notImplemented "Create send email action has not been implemented")
    ∧ (applyTrigger "monthlydow" "2024-01-01" "08:00:00"
        none none (some 2) none (some 1) (some 1) newTaskDef).triggers.length
      = 1 :=
  create_task_unimplemented_action demoLookup "jobs"
    { name := "jobs", taskMap := [] } "monthlydow" "2024-01-01" "08:00:00"
    none none (some 2) none (some 1) (some 1) "email" none "run.bat" none
    "t" "d" {} (by decide) (by decide) (by decide)

/-- C10: when the folder resolves, the trigger type is outside the five
supported values and the action type is the implemented exec kind, no error
is raised: the trigger dispatch silently matches no case and the task is
registered into the folder with the exec action attached and an empty
trigger list. -/
theorem create_task_unknown_trigger
    (lookup : String → Option FolderR) (folder_name : String) (folder : FolderR)
    (trigger_type start_date start_time : String)
    (di wi dw dm my wm : Option Int)
    (action_arg : Option String) (action_file : String)
    (awd : Option String) (task_name task_description : String)
    (sett : SettingsS)
    (hf : lookup folder_name = some folder)
    (ht : trigger_type ∉ ["daily", "weekly", "monthly", "monthlydow", "one-time"]) :
    create_task lookup folder_name trigger_type start_date start_time
        di wi dw dm my wm "exec" action_arg action_file awd
        task_name task_description sett
      = .ok
        (FolderR.mk folder.name
          (upsert folder.taskMap task_name
            (execOnlyTaskDef action_arg action_file awd task_description sett)),
         execOnlyTaskDef action_arg action_file awd task_description sett)
    ∧ (execOnlyTaskDef action_arg action_file awd task_description sett).triggers
      = []
    ∧ (upsert folder.taskMap task_name
        (execOnlyTaskDef action_arg action_file awd task_description sett)).lookup
        task_name
      = some (execOnlyTaskDef action_arg action_file awd task_description sett) := by
  simp only [List.mem_cons, List.not_mem_nil, or_false, not_or] at ht
  obtain ⟨h1, h2, h3, h4, h5⟩ := ht
  refine ⟨?_, rfl, lookup_upsert_self _ _ _⟩
  simp [create_task, hf, applyTrigger, h1, h2, h3, h4, h5,
    create_execution_action, register_new_task, newTaskDef, execOnlyTaskDef]

/-- C10 witness: the unknown trigger type "hourly" with the exec action
registers a task with the action and no trigger. -/
theorem create_task_unknown_trigger_witness :
    create_task demoLookup "jobs" "hourly" "2024-01-01" "08:00:00"
        none none none none none none "exec" (some "-v") "run.bat"
        (some "C:\\work") "t" "d" {}
      = .ok
        ({ name := "jobs",
           taskMap := [("t", execOnlyTaskDef (some "-v") "run.bat"
             (some "C:\\work") "d" {})] },
         execOnlyTaskDef (some "-v") "run.bat" (some "C:\\work") "d" {}) :=
  (create_task_unknown_trigger demoLookup "jobs"
    { name := "jobs", taskMap := [] } "hourly" "2024-01-01" "08:00:00"
    none none none none none none (some "-v") "run.bat" (some "C:\\work")
    "t" "d" {} (by decide) (by decide)).1

end PyTaskSched
